import Mathlib

/-!
Verification development for the community-chats audio-meeting core.

The definitions below are a shallow embedding of the three cooperating
modules of the repository:

* `WebRTC`   — the peer-connection manager `WebRTCService`
  (frontend service file, `createPeerConnection`, `handleOffer`,
  `handleAnswer`, `handleIceCandidate`, `removePeerConnection`, and the
  participant-joined signaling handler wired in `setupSignalingHandlers`);
* `Signaling` — `DecentralizedSignalingService`
  (`listenForParticipants` roster handler, `listenForSignaling`
  offer/answer/candidate handlers with their processed-key sets);
* `Mixer`    — `ParticipantAudioMixer` of `frontend/src/services/audio.ts`
  (`ensureAudioContext`, `addParticipant`, `removeParticipant`,
  `setParticipantVolume`, `setParticipantMuted`, `getParticipants`,
  `getMixedStream`, `cleanup`).

JavaScript `Map` objects are embedded as association lists with
`Map.set`/`Map.delete` semantics (`mset`/`mdel`), optional / possibly
`undefined` fields as `Option`, and JavaScript truthiness tests on
strings and numbers as explicit boolean functions.  Async handlers that
may reject are embedded in `Except`; a `try { … } catch { … }` block in
the source becomes an explicit `match` on the `Except` value.
-/

/-- JavaScript truthiness of a possibly-undefined string field:
`undefined`/`null` and the empty string are falsy. -/
def jsTruthyS : Option String → Bool
  | none => false
  | some s => s ≠ ""

/-- JavaScript truthiness of a possibly-undefined numeric field:
`undefined`/`null` and `0` are falsy. -/
def jsTruthyN : Option Nat → Bool
  | none => false
  | some n => n ≠ 0

/-- `Map.get k` on an association list: first entry with the key, if any. -/
def mget {α : Type} : List (String × α) → String → Option α
  | [], _ => none
  | (a, b) :: t, k => if a = k then some b else mget t k

/-- `Map.set k v` on an association list: replaces the value of an
existing key in place, otherwise appends the new entry (insertion
order, as a JavaScript `Map`). -/
def mset {α : Type} : List (String × α) → String → α → List (String × α)
  | [], k, v => [(k, v)]
  | (a, b) :: t, k, v => if a = k then (k, v) :: t else (a, b) :: mset t k v

/-- `Map.delete k` on an association list. -/
def mdel {α : Type} : List (String × α) → String → List (String × α)
  | [], _ => []
  | (a, b) :: t, k => if a = k then mdel t k else (a, b) :: mdel t k

namespace WebRTC

/-- An `RTCSessionDescriptionInit`: both fields may be `undefined`.
The `type` field is named `sdpType` here. -/
structure SessionDesc where
  sdpType : Option String
  sdp : Option String
deriving DecidableEq, Repr

/-- An `RTCIceCandidateInit`: the `candidate` string may be `undefined`. -/
structure CandInit where
  candidate : Option String
deriving DecidableEq, Repr

/-- The observable state of one `RTCPeerConnection`. -/
structure PC where
  localDesc : Option SessionDesc
  remoteDesc : Option SessionDesc
  /-- Candidate payloads applied via `addIceCandidate`, in order. -/
  candidates : List String
deriving DecidableEq, Repr

def newPC : PC := { localDesc := none, remoteDesc := none, candidates := [] }

/-- `RTCPeerConnection.addIceCandidate`: rejects with `InvalidStateError`
when no remote description has been set, otherwise applies the candidate. -/
def PC.addIceCandidate (pc : PC) (c : String) : Except String PC :=
  if pc.remoteDesc.isNone then .error "InvalidStateError"
  else .ok { pc with candidates := pc.candidates ++ [c] }

/-- The state of a `WebRTCService`: its `peerConnections` map plus the
offers and answers it has handed to the signaling service. -/
structure WState where
  peers : List (String × PC)
  /-- `(participantId, offer)` pairs passed to `signalingService.sendOffer`. -/
  sentOffers : List (String × SessionDesc)
  /-- `(participantId, answer)` pairs passed to `signalingService.sendAnswer`. -/
  sentAnswers : List (String × SessionDesc)
deriving DecidableEq, Repr

def initW : WState := { peers := [], sentOffers := [], sentAnswers := [] }

/-- The offer produced by `peerConnection.createOffer` for a given remote
participant (payload opaque to this model). -/
def mkOffer (pid : String) : SessionDesc :=
  { sdpType := some "offer", sdp := some ("offer-sdp-for-" ++ pid) }

/-- The answer produced by `peerConnection.createAnswer` for a given remote
participant (payload opaque to this model). -/
def mkAnswer (pid : String) : SessionDesc :=
  { sdpType := some "answer", sdp := some ("answer-sdp-for-" ++ pid) }

/-- `WebRTCService.createPeerConnection(participantId, shouldCreateOffer)`:
returns the existing connection unchanged when one is present; otherwise
creates a fresh connection, registers it, and — when `shouldCreateOffer` —
creates an offer, sets it as local description and sends it. -/
def createPeerConnection (s : WState) (pid : String) (shouldCreateOffer : Bool) :
    WState × PC :=
  match mget s.peers pid with
  | some pc => (s, pc)
  | none =>
    if shouldCreateOffer then
      let pc : PC := { newPC with localDesc := some (mkOffer pid) }
      ({ s with peers := mset s.peers pid pc,
                sentOffers := s.sentOffers ++ [(pid, mkOffer pid)] }, pc)
    else
      ({ s with peers := mset s.peers pid newPC }, newPC)

/-- The `onParticipantJoined` handler installed by
`setupSignalingHandlers`: unconditionally
`createPeerConnection(participant.address, true)`. -/
def onPeerJoined (s : WState) (pid : String) : WState :=
  (createPeerConnection s pid true).1

/-- `WebRTCService.handleOffer`: drops offers whose `type` or `sdp` field
is falsy, otherwise creates/fetches the connection, applies the remote
description, creates and sets an answer and sends it. -/
def handleOffer (s : WState) (pid : String) (offer : Option SessionDesc) :
    Except String WState :=
  match offer with
  | none => .ok s
  | some o =>
    if jsTruthyS o.sdpType && jsTruthyS o.sdp then
      let r := createPeerConnection s pid false
      let pc := { r.2 with remoteDesc := some o, localDesc := some (mkAnswer pid) }
      .ok { r.1 with peers := mset r.1.peers pid pc,
                     sentAnswers := r.1.sentAnswers ++ [(pid, mkAnswer pid)] }
    else .ok s

/-- `WebRTCService.handleAnswer`: drops answers whose `type` or `sdp`
field is falsy; applies the remote description when a connection exists. -/
def handleAnswer (s : WState) (pid : String) (answer : Option SessionDesc) :
    Except String WState :=
  match answer with
  | none => .ok s
  | some a =>
    if jsTruthyS a.sdpType && jsTruthyS a.sdp then
      match mget s.peers pid with
      | none => .ok s
      | some pc =>
        .ok { s with peers := mset s.peers pid { pc with remoteDesc := some a } }
    else .ok s

/-- `WebRTCService.handleIceCandidate`: no-op when no connection exists;
inside a `try`/`catch`, drops candidates with a falsy `candidate` field and
swallows any error raised by `addIceCandidate` (so a candidate arriving
before the remote description is set is silently lost, not queued). -/
def handleIceCandidate (s : WState) (pid : String) (cand : Option CandInit) :
    Except String WState :=
  match mget s.peers pid with
  | none => .ok s
  | some pc =>
    match cand with
    | none => .ok s
    | some c =>
      if jsTruthyS c.candidate then
        match pc.addIceCandidate (c.candidate.getD "") with
        | .error _ => .ok s
        | .ok pc' => .ok { s with peers := mset s.peers pid pc' }
      else .ok s

/-- `WebRTCService.removePeerConnection`: close and delete when present. -/
def removePeerConnection (s : WState) (pid : String) : WState :=
  match mget s.peers pid with
  | some _ => { s with peers := mdel s.peers pid }
  | none => s

/-- The validity test of `handleOffer`/`handleAnswer`:
`!(!desc || !desc.type || !desc.sdp)`. -/
def descValid : Option SessionDesc → Bool
  | none => false
  | some d => jsTruthyS d.sdpType && jsTruthyS d.sdp

/-- The validity test of `handleIceCandidate`:
`!(!candidate || !candidate.candidate)`. -/
def candValid : Option CandInit → Bool
  | none => false
  | some c => jsTruthyS c.candidate

end WebRTC

namespace Signaling

/-- The inner `{ type, sdp }` object written by `sendOffer`/`sendAnswer`. -/
structure SdpPayload where
  sdpType : Option String
  sdp : Option String
deriving DecidableEq, Repr

/-- A node under `signaling/<me>/offers` or `.../answers`:
`{ offer|answer, timestamp }`, possibly `null`/partial after replication. -/
structure DescMsg where
  desc : Option SdpPayload
  timestamp : Option Nat
deriving DecidableEq, Repr

/-- The candidate payload `{ candidate, … }` of an ICE message. -/
structure CandPayload where
  candidate : Option String
deriving DecidableEq, Repr

/-- A node under `signaling/<me>/ice`: `{ from, candidate, timestamp }`. -/
structure IceMsg where
  from_ : Option String
  candidate : Option CandPayload
  timestamp : Option Nat
deriving DecidableEq, Repr

/-- String interpolation of a possibly-undefined numeric field, as in
the template literal building the dedup key. -/
def tsStr : Option Nat → String
  | none => "undefined"
  | some t => toString t

/-- The receive state of `listenForSignaling`: the three `processed*`
key sets plus, for each channel, the ordered list of callback
invocations it has made. -/
structure SigState where
  processedOffers : List String
  processedAnswers : List String
  processedCandidates : List String
  firedOffers : List (String × SdpPayload)
  firedAnswers : List (String × SdpPayload)
  firedCandidates : List (String × CandPayload)
deriving DecidableEq, Repr

def initSig : SigState :=
  { processedOffers := [], processedAnswers := [], processedCandidates := [],
    firedOffers := [], firedAnswers := [], firedCandidates := [] }

/-- The `offers` subscription handler: fires the offer callback once per
`"from_timestamp"` key when the payload carries a truthy `sdp`. -/
def onOfferWrite (st : SigState) (f : String) (d : Option DescMsg) : SigState :=
  let key := f ++ "_" ++ tsStr (d.bind DescMsg.timestamp)
  match d with
  | none => st
  | some dd =>
    match dd.desc with
    | none => st
    | some o =>
      if jsTruthyS o.sdp && !(st.processedOffers.contains key) then
        { st with processedOffers := st.processedOffers ++ [key],
                  firedOffers := st.firedOffers ++ [(f, o)] }
      else st

/-- The `answers` subscription handler, same shape as the offers one. -/
def onAnswerWrite (st : SigState) (f : String) (d : Option DescMsg) : SigState :=
  let key := f ++ "_" ++ tsStr (d.bind DescMsg.timestamp)
  match d with
  | none => st
  | some dd =>
    match dd.desc with
    | none => st
    | some a =>
      if jsTruthyS a.sdp && !(st.processedAnswers.contains key) then
        { st with processedAnswers := st.processedAnswers ++ [key],
                  firedAnswers := st.firedAnswers ++ [(f, a)] }
      else st

/-- The `ice` subscription handler: deduplicates on the graph node key
`candidateId` (written by the sender as `"<from>_<timestamp>"`) and fires
the candidate callback with the message's `from` field. -/
def onIceWrite (st : SigState) (candidateId : String) (d : Option IceMsg) : SigState :=
  match d with
  | none => st
  | some dd =>
    match dd.candidate with
    | none => st
    | some c =>
      if jsTruthyS c.candidate && !(st.processedCandidates.contains candidateId) then
        { st with processedCandidates := st.processedCandidates ++ [candidateId],
                  firedCandidates := st.firedCandidates ++ [(dd.from_.getD "undefined", c)] }
      else st

/-- `n`-fold redelivery of one offer node write. -/
def iterOffer : Nat → SigState → String → Option DescMsg → SigState
  | 0, st, _, _ => st
  | n + 1, st, f, d => onOfferWrite (iterOffer n st f d) f d

/-- `n`-fold redelivery of one answer node write. -/
def iterAnswer : Nat → SigState → String → Option DescMsg → SigState
  | 0, st, _, _ => st
  | n + 1, st, f, d => onAnswerWrite (iterAnswer n st f d) f d

/-- `n`-fold redelivery of one ICE node write. -/
def iterIce : Nat → SigState → String → Option IceMsg → SigState
  | 0, st, _, _ => st
  | n + 1, st, k, d => onIceWrite (iterIce n st k d) k d

end Signaling

namespace Roster

/-- The fields of a participant record that drive `listenForParticipants`
(display metadata is opaque to the liveness logic). -/
structure PresenceData where
  address : Option String
  lastSeen : Option Nat
deriving DecidableEq, Repr

/-- One of the two callbacks `listenForParticipants` may invoke. -/
inductive RosterEvent where
  | joined (pid : String)
  | left (pid : String)
deriving DecidableEq, Repr

/-- `data.lastSeen && (Date.now() - data.lastSeen < 30000)`:
liveness classification of a roster record (JavaScript number
truthiness and signed subtraction; `Nat` truncation at `0` agrees with
the signed comparison since a negative difference is `< 30000`). -/
def isActive (now : Nat) (d : PresenceData) : Bool :=
  match d.lastSeen with
  | none => false
  | some t => t ≠ 0 && now - t < 30000

/-- The `participants` map subscription handler of
`listenForParticipants`: the `seenParticipants` set before the write
comes in as `seen`; the result is the set afterwards together with the
callback invocations made for this write. -/
def onRosterWrite (localId : String) (now : Nat) (seen : List String)
    (pid : String) (d : Option PresenceData) : List String × List RosterEvent :=
  match d with
  | none => (seen, [])
  | some dd =>
    if pid = localId then (seen, [])
    else if isActive now dd then
      if seen.contains pid then (seen, [])
      else (seen ++ [pid], [.joined pid])
    else
      if seen.contains pid then (seen.erase pid, [.left pid])
      else (seen, [])

/-- Folding a sequence of roster writes, accumulating events in order. -/
def processWrites (localId : String) (now : Nat) (seen : List String) :
    List (String × Option PresenceData) → List String × List RosterEvent
  | [] => (seen, [])
  | w :: ws =>
    let r := onRosterWrite localId now seen w.1 w.2
    let rest := processWrites localId now r.1 ws
    (rest.1, r.2 ++ rest.2)

end Roster

namespace Mixer

/-- A `MediaStreamAudioSourceNode`: graph-node identity plus the
`MediaStream` handle it captures (streams numbered abstractly). -/
structure SourceNode where
  nid : Nat
  stream : Nat
deriving DecidableEq, Repr

/-- A `GainNode`: graph-node identity plus its current `gain.value`. -/
structure GainNode where
  nid : Nat
  gain : ℚ
deriving DecidableEq, Repr

/-- An `AnalyserNode` (its measurement buffers are opaque here). -/
structure AnalyserNode where
  nid : Nat
deriving DecidableEq, Repr

/-- The state of a `ParticipantAudioMixer`: whether an open
`AudioContext` exists, a fresh-node counter, the three per-participant
maps, the set of graph nodes currently connected, and whether the
shared `mixedStream` has been materialized (non-null). -/
structure MixState where
  hasContext : Bool
  nextId : Nat
  participantSources : List (String × SourceNode)
  participantGains : List (String × GainNode)
  participantAnalysers : List (String × AnalyserNode)
  connected : List Nat
  mixedStream : Bool
deriving DecidableEq, Repr

/-- The constructor: deliberately does not create the `AudioContext`
(lazily created on first use); `mixedStream` is still `null`. -/
def initMixer : MixState :=
  { hasContext := false, nextId := 0,
    participantSources := [], participantGains := [], participantAnalysers := [],
    connected := [], mixedStream := false }

/-- `ensureAudioContext`: when no open context exists, create one
together with the destination node and the shared mixed stream. -/
def ensureAudioContext (s : MixState) : MixState :=
  if s.hasContext then s
  else { s with hasContext := true, mixedStream := true }

/-- `removeParticipant`: for each of the three maps independently,
disconnect the node and delete the entry when present; no-op when
absent. -/
def removeParticipant (s : MixState) (pid : String) : MixState :=
  let s1 :=
    match mget s.participantSources pid with
    | some src => { s with connected := s.connected.erase src.nid,
                           participantSources := mdel s.participantSources pid }
    | none => s
  let s2 :=
    match mget s1.participantGains pid with
    | some g => { s1 with connected := s1.connected.erase g.nid,
                          participantGains := mdel s1.participantGains pid }
    | none => s1
  match mget s2.participantAnalysers pid with
  | some a => { s2 with connected := s2.connected.erase a.nid,
                        participantAnalysers := mdel s2.participantAnalysers pid }
  | none => s2

/-- `addParticipant`: ensure the context, dispose any previous graph
path for the id, then build source → gain(1.0) → analyser →
destination from fresh nodes and record them in the three maps. -/
def addParticipant (s : MixState) (pid : String) (stream : Nat) : MixState :=
  let e := ensureAudioContext s
  let e := if (mget e.participantSources pid).isSome then removeParticipant e pid else e
  let src : SourceNode := { nid := e.nextId, stream := stream }
  let g : GainNode := { nid := e.nextId + 1, gain := 1 }
  let an : AnalyserNode := { nid := e.nextId + 2 }
  { e with nextId := e.nextId + 3,
           connected := e.connected ++ [src.nid, g.nid, an.nid],
           participantSources := mset e.participantSources pid src,
           participantGains := mset e.participantGains pid g,
           participantAnalysers := mset e.participantAnalysers pid an }

/-- `setParticipantVolume`: clamp to `[0, 2]` and update the gain value
when the participant has a gain node. -/
def setParticipantVolume (s : MixState) (pid : String) (volume : ℚ) : MixState :=
  match mget s.participantGains pid with
  | some g =>
    let g2 : GainNode := { g with gain := max 0 (min 2 volume) }
    { s with participantGains := mset s.participantGains pid g2 }
  | none => s

/-- `setParticipantMuted`: gain `0` when muting, gain `1` when
unmuting, when the participant has a gain node. -/
def setParticipantMuted (s : MixState) (pid : String) (muted : Bool) : MixState :=
  match mget s.participantGains pid with
  | some g =>
    let g2 : GainNode := { g with gain := if muted then 0 else 1 }
    { s with participantGains := mset s.participantGains pid g2 }
  | none => s

/-- `getParticipants`: `Array.from(this.participantSources.keys())`. -/
def getParticipants (s : MixState) : List String :=
  s.participantSources.map Prod.fst

/-- `getMixedStream`: `true` means the shared stream is non-null. -/
def getMixedStream (s : MixState) : Bool :=
  s.mixedStream

/-- `cleanup`: disconnect every node held in the three maps, clear the
maps, and close the context; the `mixedStream` field is not reset. -/
def cleanup (s : MixState) : MixState :=
  let nodes := s.participantSources.map (fun p => p.2.nid)
    ++ s.participantGains.map (fun p => p.2.nid)
    ++ s.participantAnalysers.map (fun p => p.2.nid)
  { s with participantSources := [], participantGains := [], participantAnalysers := [],
           connected := nodes.foldl (fun c n => c.erase n) s.connected,
           hasContext := false }

/-- The public operations of the mixer, for stating invariants over
arbitrary call sequences. -/
inductive MixOp where
  | add (pid : String) (stream : Nat)
  | remove (pid : String)
  | setVolume (pid : String) (volume : ℚ)
  | setMuted (pid : String) (muted : Bool)
  | clean
deriving DecidableEq, Repr

def mixStep (s : MixState) : MixOp → MixState
  | .add pid stream => addParticipant s pid stream
  | .remove pid => removeParticipant s pid
  | .setVolume pid v => setParticipantVolume s pid v
  | .setMuted pid m => setParticipantMuted s pid m
  | .clean => cleanup s

def runMixer (ops : List MixOp) : MixState :=
  ops.foldl mixStep initMixer

/-- The three per-participant maps agree on their key set. -/
def sameKeys (s : MixState) : Prop :=
  ∀ pid : String,
    ((mget s.participantSources pid).isSome = (mget s.participantGains pid).isSome)
    ∧ ((mget s.participantSources pid).isSome = (mget s.participantAnalysers pid).isSome)

end Mixer

/-! ## Library lemmas about the `Map` embedding -/

theorem mget_mset_self {α : Type} (m : List (String × α)) (k : String) (v : α) :
    mget (mset m k v) k = some v := by
  induction m with
  | nil => simp [mset, mget]
  | cons p t ih =>
    obtain ⟨a, b⟩ := p
    by_cases h : a = k
    · simp [mset, h, mget]
    · simp [mset, h, mget, ih]

theorem mget_mset_ne {α : Type} (m : List (String × α)) (k k' : String) (v : α)
    (h : k' ≠ k) : mget (mset m k v) k' = mget m k' := by
  induction m with
  | nil => simp [mset, mget, Ne.symm h]
  | cons p t ih =>
    obtain ⟨a, b⟩ := p
    by_cases ha : a = k
    · subst ha
      simp [mset, mget, Ne.symm h]
    · simp [mset, ha, mget, ih]

theorem mget_mdel_self {α : Type} (m : List (String × α)) (k : String) :
    mget (mdel m k) k = none := by
  induction m with
  | nil => simp [mdel, mget]
  | cons p t ih =>
    obtain ⟨a, b⟩ := p
    by_cases h : a = k
    · simpa [mdel, h] using ih
    · simp [mdel, h, mget, ih]

theorem mget_mdel_ne {α : Type} (m : List (String × α)) (k k' : String)
    (h : k' ≠ k) : mget (mdel m k) k' = mget m k' := by
  induction m with
  | nil => simp [mdel]
  | cons p t ih =>
    obtain ⟨a, b⟩ := p
    by_cases ha : a = k
    · subst ha
      simp [mdel, mget, Ne.symm h, ih]
    · simp [mdel, ha, mget, ih]

theorem mem_keys_of_mget_isSome {α : Type} (m : List (String × α)) (k : String)
    (h : (mget m k).isSome = true) : k ∈ m.map Prod.fst := by
  induction m with
  | nil => simp [mget] at h
  | cons p t ih =>
    obtain ⟨a, b⟩ := p
    by_cases hk : a = k
    · simp [hk]
    · simp only [mget, if_neg hk] at h
      simp [ih h]

namespace Mixer

@[simp] theorem ensure_participantSources (s : MixState) :
    (ensureAudioContext s).participantSources = s.participantSources := by
  unfold ensureAudioContext; split <;> rfl

@[simp] theorem ensure_participantGains (s : MixState) :
    (ensureAudioContext s).participantGains = s.participantGains := by
  unfold ensureAudioContext; split <;> rfl

@[simp] theorem ensure_participantAnalysers (s : MixState) :
    (ensureAudioContext s).participantAnalysers = s.participantAnalysers := by
  unfold ensureAudioContext; split <;> rfl

@[simp] theorem ensure_nextId (s : MixState) :
    (ensureAudioContext s).nextId = s.nextId := by
  unfold ensureAudioContext; split <;> rfl

@[simp] theorem ensure_connected (s : MixState) :
    (ensureAudioContext s).connected = s.connected := by
  unfold ensureAudioContext; split <;> rfl

/-- When the participant holds nodes in all three maps,
`removeParticipant` deletes the three entries and disconnects the
three nodes. -/
theorem removeParticipant_eq (s : MixState) (pid : String)
    (src : SourceNode) (g : GainNode) (an : AnalyserNode)
    (hs : mget s.participantSources pid = some src)
    (hg : mget s.participantGains pid = some g)
    (ha : mget s.participantAnalysers pid = some an) :
    removeParticipant s pid =
      { s with participantSources := mdel s.participantSources pid,
               participantGains := mdel s.participantGains pid,
               participantAnalysers := mdel s.participantAnalysers pid,
               connected := ((s.connected.erase src.nid).erase g.nid).erase an.nid } := by
  unfold removeParticipant
  simp only [hs, hg, ha]

theorem remove_sources_self (s : MixState) (pid : String) :
    mget (removeParticipant s pid).participantSources pid = none := by
  unfold removeParticipant
  cases hs : mget s.participantSources pid <;>
    simp only [hs] <;>
    cases hg : mget s.participantGains pid <;>
    simp only [hg] <;>
    cases ha : mget s.participantAnalysers pid <;>
    simp [ha, hs, mget_mdel_self]

theorem remove_gains_self (s : MixState) (pid : String) :
    mget (removeParticipant s pid).participantGains pid = none := by
  unfold removeParticipant
  cases hs : mget s.participantSources pid <;>
    simp only [hs] <;>
    cases hg : mget s.participantGains pid <;>
    simp only [hg] <;>
    cases ha : mget s.participantAnalysers pid <;>
    simp [ha, hg, mget_mdel_self]

theorem remove_analysers_self (s : MixState) (pid : String) :
    mget (removeParticipant s pid).participantAnalysers pid = none := by
  unfold removeParticipant
  cases hs : mget s.participantSources pid <;>
    simp only [hs] <;>
    cases hg : mget s.participantGains pid <;>
    simp only [hg] <;>
    cases ha : mget s.participantAnalysers pid <;>
    simp [ha, mget_mdel_self]

theorem remove_sources_ne (s : MixState) (pid q : String) (hq : q ≠ pid) :
    mget (removeParticipant s pid).participantSources q = mget s.participantSources q := by
  unfold removeParticipant
  cases hs : mget s.participantSources pid <;>
    simp only [hs] <;>
    cases hg : mget s.participantGains pid <;>
    simp only [hg] <;>
    cases ha : mget s.participantAnalysers pid <;>
    simp [ha, mget_mdel_ne _ _ _ hq]

theorem remove_gains_ne (s : MixState) (pid q : String) (hq : q ≠ pid) :
    mget (removeParticipant s pid).participantGains q = mget s.participantGains q := by
  unfold removeParticipant
  cases hs : mget s.participantSources pid <;>
    simp only [hs] <;>
    cases hg : mget s.participantGains pid <;>
    simp only [hg] <;>
    cases ha : mget s.participantAnalysers pid <;>
    simp [ha, mget_mdel_ne _ _ _ hq]

theorem remove_analysers_ne (s : MixState) (pid q : String) (hq : q ≠ pid) :
    mget (removeParticipant s pid).participantAnalysers q = mget s.participantAnalysers q := by
  unfold removeParticipant
  cases hs : mget s.participantSources pid <;>
    simp only [hs] <;>
    cases hg : mget s.participantGains pid <;>
    simp only [hg] <;>
    cases ha : mget s.participantAnalysers pid <;>
    simp [ha, mget_mdel_ne _ _ _ hq]

theorem remove_nextId (s : MixState) (pid : String) :
    (removeParticipant s pid).nextId = s.nextId := by
  unfold removeParticipant
  cases hs : mget s.participantSources pid <;>
    simp only [hs] <;>
    cases hg : mget s.participantGains pid <;>
    simp only [hg] <;>
    cases ha : mget s.participantAnalysers pid <;>
    simp [ha]

theorem remove_mixedStream (s : MixState) (pid : String) :
    (removeParticipant s pid).mixedStream = s.mixedStream := by
  unfold removeParticipant
  cases hs : mget s.participantSources pid <;>
    simp only [hs] <;>
    cases hg : mget s.participantGains pid <;>
    simp only [hg] <;>
    cases ha : mget s.participantAnalysers pid <;>
    simp [ha]

theorem removeParticipant_connected_subset (s : MixState) (pid : String) :
    ∀ x ∈ (removeParticipant s pid).connected, x ∈ s.connected := by
  intro x hx
  unfold removeParticipant at hx
  cases hs : mget s.participantSources pid <;> simp only [hs] at hx <;>
    cases hg : mget s.participantGains pid <;> simp only [hg] at hx <;>
    cases ha : mget s.participantAnalysers pid <;> simp only [ha] at hx <;>
    solve_by_elim [List.mem_of_mem_erase]

theorem add_sources_self (s : MixState) (pid : String) (h : Nat) :
    mget (addParticipant s pid h).participantSources pid
      = some { nid := s.nextId, stream := h } := by
  unfold addParticipant
  by_cases hp : (mget s.participantSources pid).isSome = true <;>
    simp [hp, mget_mset_self, remove_nextId]

theorem add_gains_self (s : MixState) (pid : String) (h : Nat) :
    mget (addParticipant s pid h).participantGains pid
      = some { nid := s.nextId + 1, gain := 1 } := by
  unfold addParticipant
  by_cases hp : (mget s.participantSources pid).isSome = true <;>
    simp [hp, mget_mset_self, remove_nextId]

theorem add_analysers_self (s : MixState) (pid : String) (h : Nat) :
    mget (addParticipant s pid h).participantAnalysers pid
      = some { nid := s.nextId + 2 } := by
  unfold addParticipant
  by_cases hp : (mget s.participantSources pid).isSome = true <;>
    simp [hp, mget_mset_self, remove_nextId]

theorem add_sources_ne (s : MixState) (pid q : String) (h : Nat) (hq : q ≠ pid) :
    mget (addParticipant s pid h).participantSources q
      = mget s.participantSources q := by
  unfold addParticipant
  by_cases hp : (mget s.participantSources pid).isSome = true <;>
    simp [hp, mget_mset_ne _ _ _ _ hq, remove_sources_ne _ _ _ hq]

theorem add_gains_ne (s : MixState) (pid q : String) (h : Nat) (hq : q ≠ pid) :
    mget (addParticipant s pid h).participantGains q
      = mget s.participantGains q := by
  unfold addParticipant
  by_cases hp : (mget s.participantSources pid).isSome = true <;>
    simp [hp, mget_mset_ne _ _ _ _ hq, remove_gains_ne _ _ _ hq]

theorem add_analysers_ne (s : MixState) (pid q : String) (h : Nat) (hq : q ≠ pid) :
    mget (addParticipant s pid h).participantAnalysers q
      = mget s.participantAnalysers q := by
  unfold addParticipant
  by_cases hp : (mget s.participantSources pid).isSome = true <;>
    simp [hp, mget_mset_ne _ _ _ _ hq, remove_analysers_ne _ _ _ hq]

theorem add_nextId (s : MixState) (pid : String) (h : Nat) :
    (addParticipant s pid h).nextId = s.nextId + 3 := by
  unfold addParticipant
  by_cases hp : (mget s.participantSources pid).isSome = true <;>
    simp [hp, remove_nextId]

theorem add_mixedStream (s : MixState) (pid : String) (h : Nat)
    (hws : s.hasContext = true → s.mixedStream = true) :
    (addParticipant s pid h).mixedStream = true := by
  have he : (ensureAudioContext s).mixedStream = true := by
    unfold ensureAudioContext
    by_cases hc : s.hasContext
    · simp [hc, hws hc]
    · simp [hc]
  unfold addParticipant
  by_cases hp : (mget s.participantSources pid).isSome = true <;>
    simp [hp, remove_mixedStream, he]

theorem setVolume_sources (s : MixState) (pid : String) (v : ℚ) :
    (setParticipantVolume s pid v).participantSources = s.participantSources := by
  unfold setParticipantVolume
  cases hg : mget s.participantGains pid <;> simp [hg]

theorem setVolume_analysers (s : MixState) (pid : String) (v : ℚ) :
    (setParticipantVolume s pid v).participantAnalysers = s.participantAnalysers := by
  unfold setParticipantVolume
  cases hg : mget s.participantGains pid <;> simp [hg]

theorem setVolume_gains_isSome (s : MixState) (pid q : String) (v : ℚ) :
    (mget (setParticipantVolume s pid v).participantGains q).isSome
      = (mget s.participantGains q).isSome := by
  unfold setParticipantVolume
  cases hg : mget s.participantGains pid <;> simp only [hg]
  by_cases hq : q = pid
  · subst hq; simp [mget_mset_self, hg]
  · simp [mget_mset_ne _ _ _ _ hq]

theorem setMuted_sources (s : MixState) (pid : String) (m : Bool) :
    (setParticipantMuted s pid m).participantSources = s.participantSources := by
  unfold setParticipantMuted
  cases hg : mget s.participantGains pid <;> simp [hg]

theorem setMuted_analysers (s : MixState) (pid : String) (m : Bool) :
    (setParticipantMuted s pid m).participantAnalysers = s.participantAnalysers := by
  unfold setParticipantMuted
  cases hg : mget s.participantGains pid <;> simp [hg]

theorem setMuted_gains_isSome (s : MixState) (pid q : String) (m : Bool) :
    (mget (setParticipantMuted s pid m).participantGains q).isSome
      = (mget s.participantGains q).isSome := by
  unfold setParticipantMuted
  cases hg : mget s.participantGains pid <;> simp only [hg]
  by_cases hq : q = pid
  · subst hq; simp [mget_mset_self, hg]
  · simp [mget_mset_ne _ _ _ _ hq]

end Mixer

/-! ## Claims about the negotiation engine (`WebRTCService`) -/

namespace WebRTC

/-- C1: the claim states that of two mutually visible participants only
the lexicographically smaller id sends an offer while the other side
answers.  The participant-joined handler instead calls
`createPeerConnection(id, true)` unconditionally, so each side sends an
offer to the other: here the service whose peer is `"A"` (i.e. the
local side is the larger id `"B"`) still sends an offer, and two
simultaneous offers exist between the pair. -/
theorem claim1_glare_both_sides_send_offer :
    (onPeerJoined initW "B").sentOffers = [("B", mkOffer "B")]
    ∧ (onPeerJoined initW "A").sentOffers = [("A", mkOffer "A")] :=
  ⟨rfl, rfl⟩

/-- C3: the claim states that candidates arriving before the remote
description are queued and flushed after it is applied.  The code has
no queue: `addIceCandidate` rejects while no remote description is set,
the surrounding catch swallows the error, and the candidate is lost —
after the answer is applied the connection's candidate list is empty. -/
theorem claim3_early_candidate_dropped :
    handleIceCandidate (onPeerJoined initW "B") "B" (some { candidate := some "cand1" })
        = .ok (onPeerJoined initW "B")
    ∧ (handleAnswer (onPeerJoined initW "B") "B"
          (some { sdpType := some "answer", sdp := some "sdpB" })).toOption.bind
        (fun s3 => (mget s3.peers "B").map PC.candidates) = some [] :=
  ⟨rfl, rfl⟩

/-- C4: at most one `PeerConnection` exists per remote id — when a
connection for the id is already present, any further
`createPeerConnection` call (in particular the one made by a duplicate
participant-joined notification, `onPeerJoined`) returns the existing
connection with the whole service state unchanged, so no new offer is
sent. -/
theorem claim4_unique_peer_connection (s : WState) (pid : String) (pc : PC) (b : Bool)
    (h : mget s.peers pid = some pc) :
    createPeerConnection s pid b = (s, pc) ∧ onPeerJoined s pid = s := by
  have h2 : createPeerConnection s pid true = (s, pc) := by
    unfold createPeerConnection; rw [h]
  refine ⟨?_, ?_⟩
  · unfold createPeerConnection; rw [h]
  · unfold onPeerJoined; rw [h2]

/-- Witness for C4: after `"B"` joined once, a duplicate join
notification for `"B"` leaves the state unchanged and sends no second
offer. -/
theorem claim4_unique_peer_connection_witness :
    createPeerConnection (onPeerJoined initW "B") "B" true
        = (onPeerJoined initW "B",
           { localDesc := some (mkOffer "B"), remoteDesc := none, candidates := [] })
    ∧ onPeerJoined (onPeerJoined initW "B") "B" = onPeerJoined initW "B" :=
  claim4_unique_peer_connection (onPeerJoined initW "B") "B"
    { localDesc := some (mkOffer "B"), remoteDesc := none, candidates := [] } true rfl

/-- C5: envelopes with missing or invalid payload fields (offer or
answer lacking a truthy `type`/`sdp`, candidate with a missing or empty
`candidate` field) are dropped by the receive handlers: the handler
returns the state unchanged and never propagates an error. -/
theorem claim5_malformed_envelopes_dropped (s : WState) (pid : String)
    (o a : Option SessionDesc) (c : Option CandInit)
    (ho : descValid o = false) (ha : descValid a = false)
    (hc : candValid c = false) :
    handleOffer s pid o = .ok s
    ∧ handleAnswer s pid a = .ok s
    ∧ handleIceCandidate s pid c = .ok s := by
  refine ⟨?_, ?_, ?_⟩
  · cases o with
    | none => rfl
    | some d =>
      have hd : (jsTruthyS d.sdpType && jsTruthyS d.sdp) = false := ho
      simp [handleOffer, hd]
  · cases a with
    | none => rfl
    | some d =>
      have hd : (jsTruthyS d.sdpType && jsTruthyS d.sdp) = false := ha
      simp [handleAnswer, hd]
  · cases hm : mget s.peers pid with
    | none => simp [handleIceCandidate, hm]
    | some pc =>
      cases c with
      | none => simp [handleIceCandidate, hm]
      | some ci =>
        have hd : jsTruthyS ci.candidate = false := hc
        simp [handleIceCandidate, hm, hd]

/-- Witness for C5: an offer with an empty `sdp`, an answer missing its
`type`, and a candidate with an empty `candidate` string are all
ignored without error on a state that holds a connection for the
sender. -/
theorem claim5_malformed_envelopes_dropped_witness :
    handleOffer (onPeerJoined initW "B") "B" (some { sdpType := some "offer", sdp := some "" })
        = .ok (onPeerJoined initW "B")
    ∧ handleAnswer (onPeerJoined initW "B") "B" (some { sdpType := none, sdp := some "x" })
        = .ok (onPeerJoined initW "B")
    ∧ handleIceCandidate (onPeerJoined initW "B") "B" (some { candidate := some "" })
        = .ok (onPeerJoined initW "B") :=
  claim5_malformed_envelopes_dropped (onPeerJoined initW "B") "B"
    (some { sdpType := some "offer", sdp := some "" })
    (some { sdpType := none, sdp := some "x" })
    (some { candidate := some "" }) rfl rfl rfl

end WebRTC

/-! ## Claims about the signaling receive path -/

namespace Signaling

theorem onOfferWrite_idem (st : SigState) (f : String) (d : Option DescMsg) :
    onOfferWrite (onOfferWrite st f d) f d = onOfferWrite st f d := by
  cases d with
  | none => rfl
  | some dd =>
    cases ho : dd.desc with
    | none => simp [onOfferWrite, ho]
    | some o =>
      by_cases hs : jsTruthyS o.sdp
      · by_cases hk : (f ++ "_" ++ tsStr dd.timestamp) ∈ st.processedOffers
        · simp [onOfferWrite, ho, hs, hk]
        · simp [onOfferWrite, ho, hs, hk]
      · simp [onOfferWrite, ho, hs]

theorem onAnswerWrite_idem (st : SigState) (f : String) (d : Option DescMsg) :
    onAnswerWrite (onAnswerWrite st f d) f d = onAnswerWrite st f d := by
  cases d with
  | none => rfl
  | some dd =>
    cases ho : dd.desc with
    | none => simp [onAnswerWrite, ho]
    | some a =>
      by_cases hs : jsTruthyS a.sdp
      · by_cases hk : (f ++ "_" ++ tsStr dd.timestamp) ∈ st.processedAnswers
        · simp [onAnswerWrite, ho, hs, hk]
        · simp [onAnswerWrite, ho, hs, hk]
      · simp [onAnswerWrite, ho, hs]

theorem onIceWrite_idem (st : SigState) (k : String) (d : Option IceMsg) :
    onIceWrite (onIceWrite st k d) k d = onIceWrite st k d := by
  cases d with
  | none => rfl
  | some dd =>
    cases ho : dd.candidate with
    | none => simp [onIceWrite, ho]
    | some c =>
      by_cases hs : jsTruthyS c.candidate
      · by_cases hk : k ∈ st.processedCandidates
        · simp [onIceWrite, ho, hs, hk]
        · simp [onIceWrite, ho, hs, hk]
      · simp [onIceWrite, ho, hs]

theorem iterOffer_succ (n : Nat) (st : SigState) (f : String) (d : Option DescMsg) :
    iterOffer (n + 1) st f d = onOfferWrite st f d := by
  induction n with
  | zero => rfl
  | succ n ih =>
    show onOfferWrite (iterOffer (n + 1) st f d) f d = onOfferWrite st f d
    rw [ih, onOfferWrite_idem]

theorem iterAnswer_succ (n : Nat) (st : SigState) (f : String) (d : Option DescMsg) :
    iterAnswer (n + 1) st f d = onAnswerWrite st f d := by
  induction n with
  | zero => rfl
  | succ n ih =>
    show onAnswerWrite (iterAnswer (n + 1) st f d) f d = onAnswerWrite st f d
    rw [ih, onAnswerWrite_idem]

theorem iterIce_succ (n : Nat) (st : SigState) (k : String) (d : Option IceMsg) :
    iterIce (n + 1) st k d = onIceWrite st k d := by
  induction n with
  | zero => rfl
  | succ n ih =>
    show onIceWrite (iterIce (n + 1) st k d) k d = onIceWrite st k d
    rw [ih, onIceWrite_idem]

/-- C2: delivering the same signaling node write (same sender key and
payload, hence the same `(from, timestamp)` dedup key) any positive
number of times leaves exactly the state produced by one delivery, for
each of the three channels — in particular the corresponding callback
fires at most once per dedup key and replays are silently ignored. -/
theorem claim2_replay_idempotent (st : SigState) (n : Nat)
    (f ck : String) (d a : Option DescMsg) (c : Option IceMsg) :
    iterOffer (n + 1) st f d = onOfferWrite st f d
    ∧ iterAnswer (n + 1) st f a = onAnswerWrite st f a
    ∧ iterIce (n + 1) st ck c = onIceWrite st ck c :=
  ⟨iterOffer_succ n st f d, iterAnswer_succ n st f a, iterIce_succ n st ck c⟩

end Signaling

/-! ## Claims about the presence roster -/

namespace Roster

theorem onRosterWrite_seen_active (localId : String) (now : Nat) (seen : List String)
    (pid : String) (d : PresenceData)
    (hne : pid ≠ localId) (hact : isActive now d = true) (hseen : pid ∈ seen) :
    onRosterWrite localId now seen pid (some d) = (seen, []) := by
  simp [onRosterWrite, hne, hact, hseen]

theorem processWrites_seen_active (localId : String) (now : Nat) (seen : List String)
    (pid : String) (d : PresenceData) (k : Nat)
    (hne : pid ≠ localId) (hact : isActive now d = true) (hseen : pid ∈ seen) :
    processWrites localId now seen (List.replicate k (pid, some d)) = (seen, []) := by
  induction k with
  | zero => rfl
  | succ k ih =>
    rw [List.replicate_succ]
    simp [processWrites, onRosterWrite_seen_active localId now seen pid d hne hact hseen, ih]

/-- C6: for a remote id, any positive number of roster writes with the
record still fresh fires the join callback exactly once (the
`seenParticipants` set suppresses re-fires); one further write whose
record has gone stale fires the leave callback exactly once, and a
second stale write fires nothing; writes carrying the local
participant's own id never fire either callback, fresh or stale. -/
theorem claim6_roster_join_leave_dedup (localId pid : String) (now now2 : Nat)
    (d dStale : PresenceData) (seen : List String) (k : Nat)
    (hne : pid ≠ localId) (hact : isActive now d = true)
    (hstale : isActive now2 dStale = false) (hnew : pid ∉ seen) :
    processWrites localId now seen (List.replicate (k + 1) (pid, some d))
        = (seen ++ [pid], [.joined pid])
    ∧ onRosterWrite localId now2 (seen ++ [pid]) pid (some dStale)
        = (seen, [.left pid])
    ∧ onRosterWrite localId now2 seen pid (some dStale) = (seen, [])
    ∧ onRosterWrite localId now seen localId (some d) = (seen, [])
    ∧ onRosterWrite localId now2 seen localId (some dStale) = (seen, []) := by
  refine ⟨?_, ?_, ?_, ?_, ?_⟩
  · rw [List.replicate_succ]
    have h1 : onRosterWrite localId now seen pid (some d)
        = (seen ++ [pid], [.joined pid]) := by
      simp [onRosterWrite, hne, hact, hnew]
    simp [processWrites, h1,
      processWrites_seen_active localId now (seen ++ [pid]) pid d k hne hact (by simp)]
  · have herase : (seen ++ [pid]).erase pid = seen := by
      rw [List.erase_append_right _ hnew]
      simp
    simp [onRosterWrite, hne, hstale, herase]
  · simp [onRosterWrite, hne, hstale, hnew]
  · simp [onRosterWrite]
  · simp [onRosterWrite]

/-- Witness for C6: `"peer"` announces three times while fresh (one
join), goes stale (one leave), stays absent on a second stale write,
and writes under the local id `"me"` fire nothing. -/
theorem claim6_roster_join_leave_dedup_witness :
    processWrites "me" 40000 []
        (List.replicate 3 ("peer", some ({ address := some "peer", lastSeen := some 39000 } : PresenceData)))
        = (["peer"], [.joined "peer"])
    ∧ onRosterWrite "me" 70000 ["peer"] "peer"
        (some { address := some "peer", lastSeen := some 39000 })
        = ([], [.left "peer"])
    ∧ onRosterWrite "me" 70000 [] "peer"
        (some { address := some "peer", lastSeen := some 39000 }) = ([], [])
    ∧ onRosterWrite "me" 40000 [] "me"
        (some { address := some "peer", lastSeen := some 39000 }) = ([], [])
    ∧ onRosterWrite "me" 70000 [] "me"
        (some { address := some "peer", lastSeen := some 39000 }) = ([], []) :=
  claim6_roster_join_leave_dedup "me" "peer" 40000 70000
    { address := some "peer", lastSeen := some 39000 }
    { address := some "peer", lastSeen := some 39000 } [] 2
    (by decide) (by decide) (by decide) (by decide)

end Roster

/-! ## Claims about the audio mixer -/

namespace Mixer

theorem getMixedStream_eq (s : MixState) : getMixedStream s = s.mixedStream := rfl

theorem cleanup_mixedStream (s : MixState) : (cleanup s).mixedStream = s.mixedStream := rfl

theorem add_connected_decomp (s : MixState) (pid : String) (h : Nat) :
    ∃ C, (addParticipant s pid h).connected = C ++ [s.nextId, s.nextId + 1, s.nextId + 2]
      ∧ ∀ x ∈ C, x ∈ s.connected := by
  unfold addParticipant
  by_cases hp : (mget s.participantSources pid).isSome = true
  · refine ⟨(removeParticipant (ensureAudioContext s) pid).connected, ?_, ?_⟩
    · simp [hp, remove_nextId]
    · intro x hx
      have hsub := removeParticipant_connected_subset (ensureAudioContext s) pid x hx
      simpa using hsub
  · exact ⟨s.connected, by simp [hp], fun x hx => hx⟩

theorem add_connected_present (s : MixState) (pid : String) (h : Nat)
    (src : SourceNode) (g : GainNode) (an : AnalyserNode)
    (hs : mget s.participantSources pid = some src)
    (hg : mget s.participantGains pid = some g)
    (ha : mget s.participantAnalysers pid = some an) :
    (addParticipant s pid h).connected
      = (((s.connected.erase src.nid).erase g.nid).erase an.nid)
        ++ [s.nextId, s.nextId + 1, s.nextId + 2] := by
  unfold addParticipant
  have hrem := removeParticipant_eq (ensureAudioContext s) pid src g an
    (by simp [hs]) (by simp [hg]) (by simp [ha])
  have hp : (mget s.participantSources pid).isSome = true := by simp [hs]
  simp [hp, hrem]

/-- C7 counterexample: with prior gain `2` (set through
`setParticipantVolume`, within the allowed remote range `[0, 2]`),
muting and unmuting leaves the gain at `1`, not at the prior value `2`
— the code does not store or restore the prior gain. -/
theorem claim7_counterexample_prior_gain_lost :
    (mget (setParticipantMuted (setParticipantMuted
        (setParticipantVolume (addParticipant initMixer "p" 0) "p" 2)
        "p" true) "p" false).participantGains "p").map GainNode.gain = some 1
    ∧ ¬((1 : ℚ) = 2) := by
  constructor
  · rfl
  · norm_num

/-- C7 (amended): for every source id with a gain node,
`setMuted(id, true)` sets the gain to `0` and the id remains listed in
the sources; `setMuted(id, false)` afterwards sets the gain to the
default `1` (the prior gain is not stored, so a non-default prior gain
is not restored); muting never removes the id from the mixer. -/
theorem claim7_mute_zero_unmute_one (s : MixState) (pid : String) (g : GainNode)
    (hg : mget s.participantGains pid = some g)
    (hs : (mget s.participantSources pid).isSome = true) :
    (mget (setParticipantMuted s pid true).participantGains pid).map GainNode.gain = some 0
    ∧ pid ∈ getParticipants (setParticipantMuted s pid true)
    ∧ (mget (setParticipantMuted (setParticipantMuted s pid true) pid false).participantGains
        pid).map GainNode.gain = some 1 := by
  have h1 : setParticipantMuted s pid true
      = { s with participantGains := mset s.participantGains pid { g with gain := 0 } } := by
    unfold setParticipantMuted
    rw [hg]
    rfl
  refine ⟨?_, ?_, ?_⟩
  · rw [h1]
    simp [mget_mset_self]
  · rw [h1]
    exact mem_keys_of_mget_isSome _ _ hs
  · rw [h1]
    have h2 : mget (mset s.participantGains pid { g with gain := 0 }) pid
        = some { g with gain := 0 } := mget_mset_self _ _ _
    unfold setParticipantMuted
    simp [h2, mget_mset_self]

/-- Witness for C7 (amended): a freshly added source `"p"` is muted to
gain `0`, stays listed, and unmutes back to the default gain `1`. -/
theorem claim7_mute_zero_unmute_one_witness :
    (mget (setParticipantMuted (addParticipant initMixer "p" 0) "p" true).participantGains
        "p").map GainNode.gain = some 0
    ∧ "p" ∈ getParticipants (setParticipantMuted (addParticipant initMixer "p" 0) "p" true)
    ∧ (mget (setParticipantMuted (setParticipantMuted (addParticipant initMixer "p" 0) "p" true)
        "p" false).participantGains "p").map GainNode.gain = some 1 :=
  claim7_mute_zero_unmute_one (addParticipant initMixer "p" 0) "p"
    { nid := 1, gain := 1 } (by decide) (by decide)

/-- C8: `addSource` is idempotent per id — when it is called twice for
the same id with two different media handles (on any state whose
connected nodes predate the fresh-node counter, as every reachable
state does), the second call first disposes of the first call's graph
nodes and rebuilds, so afterwards exactly one source entry exists for
the id, it is attached to the second handle, its node is connected,
and the first call's source node is no longer connected. -/
theorem claim8_add_twice_rebuilds (s : MixState) (pid : String) (h1 h2 : Nat)
    (hconn : ∀ n ∈ s.connected, n < s.nextId) :
    (mget (addParticipant (addParticipant s pid h1) pid h2).participantSources
        pid).map SourceNode.stream = some h2
    ∧ (∀ src1, mget (addParticipant s pid h1).participantSources pid = some src1 →
        src1.nid ∉ (addParticipant (addParticipant s pid h1) pid h2).connected)
    ∧ (∀ src2, mget (addParticipant (addParticipant s pid h1) pid h2).participantSources pid
          = some src2 →
        src2.nid ∈ (addParticipant (addParticipant s pid h1) pid h2).connected) := by
  set n := s.nextId with hn
  have hs1 := add_sources_self s pid h1
  have hg1 := add_gains_self s pid h1
  have ha1 := add_analysers_self s pid h1
  have hn1 := add_nextId s pid h1
  obtain ⟨C, hC, hCmem⟩ := add_connected_decomp s pid h1
  have hClt : ∀ x ∈ C, x < n := fun x hx => hconn x (hCmem x hx)
  have hCn0 : n ∉ C := fun hmem => lt_irrefl n (hClt n hmem)
  have hCn1 : n + 1 ∉ C := fun hmem => by have := hClt _ hmem; omega
  have hCn2 : n + 2 ∉ C := fun hmem => by have := hClt _ hmem; omega
  have hconn2 : (addParticipant (addParticipant s pid h1) pid h2).connected
      = C ++ [n + 3, n + 4, n + 5] := by
    rw [add_connected_present (addParticipant s pid h1) pid h2 _ _ _ hs1 hg1 ha1, hC, hn1]
    rw [List.erase_append_right _ hCn0, List.erase_append_right _ hCn1,
        List.erase_append_right _ hCn2]
    simp [List.erase_cons_head, List.erase_cons]
  have hs2 : mget (addParticipant (addParticipant s pid h1) pid h2).participantSources pid
      = some { nid := n + 3, stream := h2 } := by
    rw [add_sources_self (addParticipant s pid h1) pid h2, hn1]
  refine ⟨?_, ?_, ?_⟩
  · rw [hs2]
    rfl
  · intro src1 hsrc1
    rw [hs1] at hsrc1
    cases hsrc1
    rw [hconn2]
    intro hmem
    rcases List.mem_append.mp hmem with hml | hmr
    · exact lt_irrefl n (hClt n hml)
    · simp at hmr
  · intro src2 hsrc2
    rw [hs2] at hsrc2
    cases hsrc2
    rw [hconn2]
    exact List.mem_append.mpr (Or.inr (by simp))

/-- Witness for C8: adding `"p"` with handle `7` and again with handle
`8` on a fresh mixer. -/
theorem claim8_add_twice_rebuilds_witness :
    (mget (addParticipant (addParticipant initMixer "p" 7) "p" 8).participantSources
        "p").map SourceNode.stream = some 8
    ∧ (∀ src1, mget (addParticipant initMixer "p" 7).participantSources "p" = some src1 →
        src1.nid ∉ (addParticipant (addParticipant initMixer "p" 7) "p" 8).connected)
    ∧ (∀ src2, mget (addParticipant (addParticipant initMixer "p" 7) "p" 8).participantSources "p"
          = some src2 →
        src2.nid ∈ (addParticipant (addParticipant initMixer "p" 7) "p" 8).connected) :=
  claim8_add_twice_rebuilds initMixer "p" 7 8 (by simp [initMixer])

/-- C9 counterexample: the constructor deliberately does not create the
audio context, so immediately after construction — zero sources added —
`getMixedStream` returns `null` (modelled as `false`), contradicting
the claim that the shared destination stream is non-null as soon as
the engine is constructed. -/
theorem claim9_counterexample_null_at_construction :
    getMixedStream initMixer = false :=
  rfl

/-- C9 (amended): `getMixedOutput` is `null` from construction until
the audio context is lazily created by the first `addSource`; from that
point on it returns the non-null shared destination stream even with
zero sources — after the source is removed again, and after `cleanup`.
(The hypothesis records that a state with an open context has a
materialized stream, which holds in every reachable state.) -/
theorem claim9_mixed_stream_lazy (s : MixState) (pid : String) (h : Nat)
    (hws : s.hasContext = true → s.mixedStream = true) :
    getMixedStream initMixer = false
    ∧ getMixedStream (addParticipant s pid h) = true
    ∧ getMixedStream (removeParticipant (addParticipant s pid h) pid) = true
    ∧ getMixedStream (cleanup (addParticipant s pid h)) = true := by
  have hadd := add_mixedStream s pid h hws
  refine ⟨rfl, hadd, ?_, ?_⟩
  · rw [getMixedStream_eq, remove_mixedStream]
    exact hadd
  · rw [getMixedStream_eq, cleanup_mixedStream]
    exact hadd

/-- Witness for C9 (amended): on a fresh mixer, the stream is null at
construction and non-null after (and ever after) the first add. -/
theorem claim9_mixed_stream_lazy_witness :
    getMixedStream initMixer = false
    ∧ getMixedStream (addParticipant initMixer "p" 5) = true
    ∧ getMixedStream (removeParticipant (addParticipant initMixer "p" 5) "p") = true
    ∧ getMixedStream (cleanup (addParticipant initMixer "p" 5)) = true :=
  claim9_mixed_stream_lazy initMixer "p" 5 (by decide)

theorem mixStep_preserves_sameKeys (s : MixState) (op : MixOp)
    (hs : sameKeys s) : sameKeys (mixStep s op) := by
  cases op with
  | add pid stream =>
    intro q
    by_cases hq : q = pid
    · subst hq
      simp [mixStep, add_sources_self, add_gains_self, add_analysers_self]
    · have h1 := add_sources_ne s pid q stream hq
      have h2 := add_gains_ne s pid q stream hq
      have h3 := add_analysers_ne s pid q stream hq
      simp only [mixStep, h1, h2, h3]
      exact hs q
  | remove pid =>
    intro q
    by_cases hq : q = pid
    · subst hq
      simp [mixStep, remove_sources_self, remove_gains_self, remove_analysers_self]
    · have h1 := remove_sources_ne s pid q hq
      have h2 := remove_gains_ne s pid q hq
      have h3 := remove_analysers_ne s pid q hq
      simp only [mixStep, h1, h2, h3]
      exact hs q
  | setVolume pid v =>
    intro q
    have h1 := setVolume_sources s pid v
    have h2 := setVolume_analysers s pid v
    have h3 := setVolume_gains_isSome s pid q v
    simp only [mixStep, h1, h2, h3]
    exact hs q
  | setMuted pid m =>
    intro q
    have h1 := setMuted_sources s pid m
    have h2 := setMuted_analysers s pid m
    have h3 := setMuted_gains_isSome s pid q m
    simp only [mixStep, h1, h2, h3]
    exact hs q
  | clean =>
    intro q
    simp [mixStep, cleanup, mget]

theorem sameKeys_foldl (ops : List MixOp) :
    ∀ s : MixState, sameKeys s → sameKeys (ops.foldl mixStep s) := by
  induction ops with
  | nil => intro s hs; exact hs
  | cons op t ih =>
    intro s hs
    exact ih (mixStep s op) (mixStep_preserves_sameKeys s op hs)

/-- C10: after any sequence of public mixer operations starting from a
fresh mixer, the three per-participant maps (sources, gains,
analysers) have exactly the same key set — no id ever holds a gain or
analyser node without a source node or vice versa. -/
theorem claim10_maps_share_key_set (ops : List MixOp) : sameKeys (runMixer ops) := by
  have hinit : sameKeys initMixer := by
    intro q
    simp [initMixer, mget]
  exact sameKeys_foldl ops initMixer hinit

end Mixer
